import Mathlib

/-!
Shallow embedding of `legal_team.py` (a single-file Streamlit app).

The app is a script re-executed on each user interaction.  We embed the
pieces that the session state and the handlers depend on:

* `SessionState` mirrors `st.session_state` (the contents of the Chroma
  collection, the current knowledge-base handle, the processed-files set);
* `uploadHandler` mirrors the upload branch of the sidebar (lines 61-82),
  with the external effects (writing the temp file, the knowledge-base
  `load` that reads, chunks, embeds and stores the PDF) abstracted into an
  `IngestEnv` of fallible functions, and the list of attempted effects
  returned as a trace;
* the four `Agent(...)` configurations are embedded as `AgentConfig`
  values, the LLM service as an oracle `Model`;
* `get_team_response` and the Analyze button handler are embedded as pure
  functions that also return the ordered trace of model calls.

Python's `if not query` on a string tests emptiness, embedded as
`query = ""`.  `load(recreate := true, upsert := true)` follows agno's
`AgentKnowledge.load` semantics: with `recreate` set the vector-store
collection is dropped and recreated before the new document's chunks are
read and inserted, so on success the collection holds exactly the chunks
of the document just loaded (`applyLoad`), and a failure during the PDF
read, chunking, embedding or insertion happens after the drop and leaves
the collection dropped (modelled as the empty collection).
-/

namespace LegalTeam

/-- A message surfaced to the user (`st.success` / `st.error` / `st.warning`). -/
inductive UiMsg where
  | success : String → UiMsg
  | error : String → UiMsg
  | warning : String → UiMsg
deriving DecidableEq, Repr

/-- Configuration of the Chroma vector store, line 30:
`ChromaDb(collection="law", path="tmp/chromadb", persistent_client=True, ...)`. -/
structure ChromaConfig where
  collection : String
  path : String
  persistent_client : Bool
deriving DecidableEq, Repr

/-- The fixed vector-store configuration created on first session access. -/
def vector_db_config : ChromaConfig :=
  { collection := "law", path := "tmp/chromadb", persistent_client := true }

/-- A `PDFKnowledgeBase` handle, lines 69-74: the temp-file path it reads
from and the chunking parameters it was constructed with. -/
structure KBConfig where
  path : String
  chunk_size : Nat
  overlap : Nat
deriving DecidableEq, Repr

/-- The session state (lines 29-38): the contents of the `"law"` collection
(chunk texts), the knowledge-base handle, and the processed-files set
(modelled as a list of filenames; membership is what the code tests). -/
structure SessionState where
  vector_db : List String
  knowledge_base : Option KBConfig
  processed_files : List String
deriving DecidableEq, Repr

/-- An uploaded file: its name and its byte content. -/
structure UploadedFile where
  name : String
  content : String
deriving DecidableEq, Repr

/-- External side effects attempted during ingestion: the temp-file write
and the knowledge-base `load` call with its `recreate` and `upsert` flags. -/
inductive IngestEffect where
  | tempWrite : String → IngestEffect
  | kbLoad : KBConfig → Bool → Bool → IngestEffect
deriving DecidableEq, Repr

/-- The environment of fallible external ingestion services:
`tempWrite` returns the temp path for the written bytes (may raise),
`kbLoad` runs the PDF read / chunking / embedding pipeline for a
knowledge-base handle and returns the chunks stored (may raise). -/
structure IngestEnv where
  tempWrite : String → Except String String
  kbLoad : KBConfig → Except String (List String)

/-- Effect of a successful `load` on the collection contents: with
`recreate` the collection is dropped first, so only the new chunks remain;
without it the chunks are appended. The source always passes `recreate=True`. -/
def applyLoad (recreate : Bool) (prior newChunks : List String) : List String :=
  if recreate then newChunks else prior ++ newChunks

/-- Result of one run of the upload branch: the updated session state, the
ordered trace of external effects attempted, and the message shown. -/
structure UploadResult where
  state : SessionState
  effects : List IngestEffect
  message : Option UiMsg
deriving Repr

/-- The upload branch of the sidebar, lines 61-82.  If the filename is
already in `processed_files` nothing happens.  Otherwise the bytes are
written to a temp file, the knowledge-base handle is reassigned to the new
`PDFKnowledgeBase` (line 69, before `load`), `load(recreate=True,
upsert=True)` is run, and only on success is the filename recorded and the
success message shown; any exception is caught and shown with
`st.error(f"Error processing document: {e}")`.  A load failure leaves the
collection dropped: `recreate` drops it before the chunks are read and
inserted, so the failing read/embed/insert finds it already empty. -/
def uploadHandler (env : IngestEnv) (chunk_size_in overlap_in : Nat)
    (st : SessionState) (f : UploadedFile) : UploadResult :=
  if f.name ∈ st.processed_files then
    ⟨st, [], none⟩
  else
    match env.tempWrite f.content with
    | .error e =>
        ⟨st, [.tempWrite f.content], some (.error ("Error processing document: " ++ e))⟩
    | .ok temp_path =>
        let kb : KBConfig := ⟨temp_path, chunk_size_in, overlap_in⟩
        let st1 : SessionState := { st with knowledge_base := some kb }
        match env.kbLoad kb with
        | .error e =>
            ⟨{ st1 with vector_db := [] },
              [.tempWrite f.content, .kbLoad kb true true],
              some (.error ("Error processing document: " ++ e))⟩
        | .ok chunks =>
            ⟨{ st1 with
                vector_db := applyLoad true st.vector_db chunks,
                processed_files := st.processed_files ++ [f.name] },
              [.tempWrite f.content, .kbLoad kb true true],
              some (.success "✅ Document processed and stored in knowledge base!")⟩

/-- External tools attached to an agent.  The source attaches only
`DuckDuckGoTools()` (web search), and only to one agent. -/
inductive ToolKind where
  | duckduckgo
deriving DecidableEq, Repr

/-- The configuration of an `Agent(...)` call: every keyword argument the
source passes (lines 87-141).  `knowledge`/`search_knowledge` control
knowledge-base consultation, `tools` external capabilities. -/
structure AgentConfig where
  name : String
  model_id : String
  knowledge : Option KBConfig
  search_knowledge : Bool
  description : String
  instructions : List String
  tools : List ToolKind
  show_tool_calls : Bool
  markdown : Bool
deriving DecidableEq, Repr

/-- `legal_researcher` (lines 87-101), built over the session's knowledge base. -/
def legal_researcher (kb : KBConfig) : AgentConfig :=
  { name := "LegalAdvisor"
    model_id := "gemini-2.0-flash-exp"
    knowledge := some kb
    search_knowledge := true
    description := "Finds and cites relevant legal cases, regulations, and precedents."
    instructions := [
      "Extract all available data from the knowledge base and search for legal cases, regulations, and citations.",
      "If needed, use DuckDuckGo for additional legal references.",
      "Always provide source references in your answers."]
    tools := [.duckduckgo]
    show_tool_calls := true
    markdown := true }

/-- `contract_analyst` (lines 103-115).  No `tools` argument is passed. -/
def contract_analyst (kb : KBConfig) : AgentConfig :=
  { name := "ContractAnalyst"
    model_id := "gemini-2.0-flash-exp"
    knowledge := some kb
    search_knowledge := true
    description := "Identifies key clauses, risks, and obligations in contracts."
    instructions := [
      "Extract all available data from the knowledge base and analyze the contract for key clauses, obligations, and potential ambiguities.",
      "Reference specific sections of the contract where possible."]
    tools := []
    show_tool_calls := true
    markdown := true }

/-- `legal_strategist` (lines 117-129).  No `tools` argument is passed. -/
def legal_strategist (kb : KBConfig) : AgentConfig :=
  { name := "LegalStrategist"
    model_id := "gemini-2.0-flash-exp"
    knowledge := some kb
    search_knowledge := true
    description := "Provides strategic legal recommendations and risk assessment."
    instructions := [
      "Using all data from the knowledge base, assess the contract for legal risks and opportunities.",
      "Provide actionable recommendations and ensure compliance with applicable laws."]
    tools := []
    show_tool_calls := true
    markdown := true }

/-- `team_lead` (lines 131-141): no knowledge base, no tools.
`search_knowledge` is not passed in the source; agno's default is kept. -/
def team_lead : AgentConfig :=
  { name := "teamlead"
    model_id := "gemini-2.0-flash-exp"
    knowledge := none
    search_knowledge := true
    description := "Integrates insights from all agents into a comprehensive report."
    instructions := [
      "Combine and summarize all insights provided by the Legal Researcher, Contract Analyst, and Legal Strategist. Ensure the final report includes references to all relevant sections from the document."]
    tools := []
    show_tool_calls := true
    markdown := true }

/-- The reply of one `agent.run(...)` call: its `.content` field and the
string rendering Python f-string interpolation of the object produces. -/
structure RunResponse where
  content : String
  asStr : String
deriving DecidableEq, Repr

/-- The external language-model service as an oracle: given the calling
agent's configuration and the prompt, it returns the reply. -/
def Model : Type := AgentConfig → String → RunResponse

/-- The prompt `get_team_response` builds for the team lead (lines 148-153);
the f-string interpolates the three worker `RunResponse` objects. -/
def team_lead_prompt (research contract strategy : RunResponse) : String :=
  "Summarize and integrate the following insights:\n\n" ++
  "Legal Researcher:\n" ++ research.asStr ++ "\n\n" ++
  "Contract Analyst:\n" ++ contract.asStr ++ "\n\n" ++
  "Legal Strategist:\n" ++ strategy.asStr ++ "\n\n" ++
  "Provide a structured legal analysis report that includes key terms, obligations, risks, and recommendations."

/-- Result of `get_team_response`: the team lead's reply and the ordered
trace of model calls made (agent configuration and prompt, in the order
the sequential code issues them). -/
structure TeamRunResult where
  response : RunResponse
  calls : List (AgentConfig × String)

/-- `get_team_response` (lines 143-155): three worker calls on the query,
strictly in sequence, then one team-lead call on the concatenated prompt. -/
def get_team_response (m : Model) (kb : KBConfig) (query : String) : TeamRunResult :=
  let research_response := m (legal_researcher kb) query
  let contract_response := m (contract_analyst kb) query
  let strategy_response := m (legal_strategist kb) query
  let prompt := team_lead_prompt research_response contract_response strategy_response
  let final_response := m team_lead prompt
  ⟨final_response,
    [(legal_researcher kb, query), (contract_analyst kb, query),
      (legal_strategist kb, query), (team_lead, prompt)]⟩

/-- `x if x else fallback`: Python falsiness of a string is emptiness. -/
def displayOr (content fallback : String) : String :=
  if content = "" then fallback else content

/-- Outcome of one click of the Analyze button: whether the empty-query
warning fired, the ordered trace of model calls, and the markdown shown in
each of the three tabs (`none` when the tabs were never rendered). -/
structure AnalyzeOutcome where
  warned : Bool
  calls : List (AgentConfig × String)
  tab_analysis : Option String
  tab_key_points : Option String
  tab_recommendations : Option String
deriving DecidableEq, Repr

/-- The prompt of the second team-lead invocation (line 201). -/
def key_points_prompt (c : String) : String :=
  "Summarize the key legal points from this analysis:\n" ++ c

/-- The prompt of the third team-lead invocation (line 206). -/
def recommendations_prompt (c : String) : String :=
  "Provide legal recommendations based on this analysis:\n" ++ c

/-- The Analyze button handler (lines 186-207): `if not query` warns and
stops; otherwise `get_team_response` runs, then the team lead is invoked
twice more on prompts built from the first response's `.content`, and each
tab shows the reply's content or a fallback string when it is empty. -/
def analyzeClick (m : Model) (kb : KBConfig) (query : String) : AnalyzeOutcome :=
  if query = "" then
    ⟨true, [], none, none, none⟩
  else
    let tr := get_team_response m kb query
    let response := tr.response
    let summary := m team_lead (key_points_prompt response.content)
    let recommendations := m team_lead (recommendations_prompt response.content)
    ⟨false,
      tr.calls ++ [(team_lead, key_points_prompt response.content),
        (team_lead, recommendations_prompt response.content)],
      some (displayOr response.content "No response generated."),
      some (displayOr summary.content "No summary generated."),
      some (displayOr recommendations.content "No recommendations generated.")⟩

/-- The options of the analysis-type selectbox (lines 161-164). -/
inductive AnalysisType where
  | contractReview
  | legalResearch
  | riskAssessment
  | complianceCheck
  | customQuery
deriving DecidableEq, Repr

/-- The query derivation (lines 166-184): the text-area value for
"Custom Query", otherwise the predefined query for the selected type. -/
def selectQuery (t : AnalysisType) (custom_text : String) : String :=
  match t with
  | .customQuery => custom_text
  | .contractReview => "Analyze this contract using the knowledge base. Identify key terms, obligations, and risks."
  | .legalResearch => "Find relevant legal cases and precedents using the knowledge base."
  | .riskAssessment => "Identify potential legal risks in the document and cite specific sections."
  | .complianceCheck => "Evaluate this document for compliance with legal regulations and highlight any concerns."

/-- The user-controlled inputs of one script run: the secret looked up at
line 46, the sidebar widgets, and the Analyze button. -/
structure ScriptInputs where
  google_api_key : Option String
  uploaded_file : Option UploadedFile
  chunk_size_in : Nat
  overlap_in : Nat
  analysis_type : AnalysisType
  custom_text : String
  analyze_clicked : Bool

/-- The observable outputs of one script run: the sidebar API-key message
(lines 48-52), the ingestion effects and message, and the Analyze outcome
(`none` when no knowledge base is loaded or the button was not clicked). -/
structure ScriptOutputs where
  api_key_msg : UiMsg
  upload_effects : List IngestEffect
  upload_msg : Option UiMsg
  analyze : Option AnalyzeOutcome

/-- One top-to-bottom run of the script: the API-key check, the upload
branch, then — only when a knowledge base is present afterwards (lines 86,
159) — the analysis panel and, on a click, the Analyze handler. -/
def scriptRun (env : IngestEnv) (m : Model) (st : SessionState)
    (inp : ScriptInputs) : SessionState × ScriptOutputs :=
  let api_key_msg := match inp.google_api_key with
    | some _ => UiMsg.success "API key loaded from secrets!"
    | none => UiMsg.error "Missing Google API Key in Streamlit secrets!"
  let up := match inp.uploaded_file with
    | none => (⟨st, [], none⟩ : UploadResult)
    | some f => uploadHandler env inp.chunk_size_in inp.overlap_in st f
  let analyze := match up.state.knowledge_base with
    | none => none
    | some kb =>
        if inp.analyze_clicked then
          some (analyzeClick m kb (selectQuery inp.analysis_type inp.custom_text))
        else none
  (up.state, ⟨api_key_msg, up.effects, up.message, analyze⟩)

/-- The model calls attempted during one script run. -/
def agentCalls (o : ScriptOutputs) : List (AgentConfig × String) :=
  match o.analyze with
  | none => []
  | some a => a.calls

/-- Whether a tab was rendered with a non-empty markdown string. -/
def shownNonempty : Option String → Bool
  | none => false
  | some s => s != ""

/-! ### Concrete fixtures used to evaluate the embedding at specific inputs -/

/-- An ingestion environment in which every external call succeeds: the temp
path echoes the uploaded bytes and the load yields one chunk derived from the
handle's path. -/
def env_echo : IngestEnv :=
  ⟨fun c => .ok c, fun kb => .ok ["chunk of " ++ kb.path]⟩

/-- An ingestion environment in which the knowledge-base load raises. -/
def env_load_fails : IngestEnv :=
  ⟨fun c => .ok ("/tmp/" ++ c), fun _ => .error "boom"⟩

/-- A model oracle that always replies with non-empty content. -/
def m0 : Model :=
  fun _ p => ⟨"reply to: " ++ p, "RunResponse(reply to: " ++ p ++ ")"⟩

/-- A concrete knowledge-base handle. -/
def kb0 : KBConfig := ⟨"/tmp/doc0.pdf", 1000, 200⟩

/-- A session that already holds one loaded document. -/
def st_onekb : SessionState := ⟨["old chunk"], some kb0, ["old.pdf"]⟩

/-- A fresh session: empty collection, no knowledge base, nothing processed. -/
def st_empty : SessionState := ⟨[], none, []⟩

/-- Script inputs with no API key in secrets and the Analyze button clicked. -/
def inp_nokey : ScriptInputs :=
  ⟨none, none, 1000, 200, AnalysisType.riskAssessment, "", true⟩

/-! ### Helper lemmas -/

/-- The tab rendering `content if content else fallback` is non-empty whenever
the fallback is. -/
theorem displayOr_ne_empty (c fb : String) (h : fb ≠ "") : displayOr c fb ≠ "" := by
  by_cases hc : c = "" <;> simp [displayOr, hc, h]

/-- Unfolding lemma: a fresh filename whose temp-file write raises. -/
theorem uploadHandler_tempWrite_error (env : IngestEnv) (cs ov : Nat)
    (st : SessionState) (f : UploadedFile) (e : String)
    (h : f.name ∉ st.processed_files)
    (htw : env.tempWrite f.content = .error e) :
    uploadHandler env cs ov st f =
      ⟨st, [.tempWrite f.content], some (.error ("Error processing document: " ++ e))⟩ := by
  simp only [uploadHandler, if_neg h, htw]

/-- Unfolding lemma: a fresh filename whose knowledge-base load raises, after
the knowledge-base handle has already been reassigned and the collection has
been dropped by `recreate`. -/
theorem uploadHandler_load_error (env : IngestEnv) (cs ov : Nat)
    (st : SessionState) (f : UploadedFile) (p e : String)
    (h : f.name ∉ st.processed_files)
    (htw : env.tempWrite f.content = .ok p)
    (hkl : env.kbLoad ⟨p, cs, ov⟩ = .error e) :
    uploadHandler env cs ov st f =
      ⟨{ st with knowledge_base := some ⟨p, cs, ov⟩, vector_db := [] },
        [.tempWrite f.content, .kbLoad ⟨p, cs, ov⟩ true true],
        some (.error ("Error processing document: " ++ e))⟩ := by
  simp only [uploadHandler, if_neg h, htw, hkl]

/-- Unfolding lemma: a fresh filename whose ingestion succeeds; the collection
is recreated, the handle reassigned, and the filename recorded. -/
theorem uploadHandler_load_ok (env : IngestEnv) (cs ov : Nat)
    (st : SessionState) (f : UploadedFile) (p : String) (chunks : List String)
    (h : f.name ∉ st.processed_files)
    (htw : env.tempWrite f.content = .ok p)
    (hkl : env.kbLoad ⟨p, cs, ov⟩ = .ok chunks) :
    uploadHandler env cs ov st f =
      ⟨{ vector_db := chunks,
          knowledge_base := some ⟨p, cs, ov⟩,
          processed_files := st.processed_files ++ [f.name] },
        [.tempWrite f.content, .kbLoad ⟨p, cs, ov⟩ true true],
        some (.success "✅ Document processed and stored in knowledge base!")⟩ := by
  simp only [uploadHandler, if_neg h, htw, hkl, applyLoad, if_pos]

/-- Unfolding lemma: a repeated upload of an already-processed filename is a
no-op. -/
theorem uploadHandler_mem (env : IngestEnv) (cs ov : Nat)
    (st : SessionState) (f : UploadedFile) (h : f.name ∈ st.processed_files) :
    uploadHandler env cs ov st f = ⟨st, [], none⟩ := by
  simp [uploadHandler, h]

/-- Unfolding lemma: the Analyze handler on a non-empty query. -/
theorem analyzeClick_of_ne_empty (m : Model) (kb : KBConfig) (q : String) (h : q ≠ "") :
    analyzeClick m kb q =
      { warned := false
        calls := (get_team_response m kb q).calls ++
          [(team_lead, key_points_prompt (get_team_response m kb q).response.content),
            (team_lead, recommendations_prompt (get_team_response m kb q).response.content)]
        tab_analysis := some (displayOr (get_team_response m kb q).response.content
          "No response generated.")
        tab_key_points := some (displayOr
          (m team_lead (key_points_prompt (get_team_response m kb q).response.content)).content
          "No summary generated.")
        tab_recommendations := some (displayOr
          (m team_lead (recommendations_prompt (get_team_response m kb q).response.content)).content
          "No recommendations generated.") } := by
  simp only [analyzeClick, if_neg h]

/-! ### Claims -/

/-- C6: once a filename is recorded as processed, a repeated upload of a file
with the same name in the same session does nothing: no temp write, no
knowledge-base load (so no chunking, embedding or storage), no message, and
the session state is returned unchanged — regardless of the file's content. -/
theorem C6_no_reingest_same_name (env : IngestEnv) (cs ov : Nat)
    (st : SessionState) (f : UploadedFile) (h : f.name ∈ st.processed_files) :
    uploadHandler env cs ov st f = ⟨st, [], none⟩ := by
  simp [uploadHandler, h]

/-- Witness for C6: a file named `old.pdf` with fresh content is ignored in a
session that has already processed `old.pdf`. -/
theorem C6_no_reingest_same_name_witness :
    ("old.pdf" : String) ∈ st_onekb.processed_files ∧
      uploadHandler env_echo 1000 200 st_onekb ⟨"old.pdf", "COMPLETELY NEW BYTES"⟩ =
        ⟨st_onekb, [], none⟩ :=
  ⟨by decide, C6_no_reingest_same_name env_echo 1000 200 st_onekb
    ⟨"old.pdf", "COMPLETELY NEW BYTES"⟩ (by decide)⟩

/-- C7: every predefined analysis type yields a non-empty query string, and an
Analyze click with "Custom Query" selected and empty text produces only the
warning: no model call is made and no tab is rendered. -/
theorem C7_query_guard (t : AnalysisType) (c : String) (m : Model) (kb : KBConfig)
    (h : t ≠ AnalysisType.customQuery) :
    selectQuery t c ≠ "" ∧
      analyzeClick m kb (selectQuery AnalysisType.customQuery "") =
        ⟨true, [], none, none, none⟩ := by
  constructor
  · cases t with
    | customQuery => exact absurd rfl h
    | contractReview => simp only [selectQuery]; decide
    | legalResearch => simp only [selectQuery]; decide
    | riskAssessment => simp only [selectQuery]; decide
    | complianceCheck => simp only [selectQuery]; decide
  · rfl

/-- Witness for C7 at the "Contract Review" analysis type. -/
theorem C7_query_guard_witness :
    AnalysisType.contractReview ≠ AnalysisType.customQuery ∧
      (selectQuery AnalysisType.contractReview "" ≠ "" ∧
        analyzeClick m0 kb0 (selectQuery AnalysisType.customQuery "") =
          ⟨true, [], none, none, none⟩) :=
  ⟨by decide, C7_query_guard AnalysisType.contractReview "" m0 kb0 (by decide)⟩

/-- C9: for a filename not yet processed, the name is recorded in
`processed_files` exactly when ingestion succeeded with the success message;
when any other message results (in particular a caught error), the
processed-files set is unchanged and a re-upload of the same file attempts
ingestion effects again. -/
theorem C9_processed_only_after_success (env : IngestEnv) (cs ov : Nat)
    (st : SessionState) (f : UploadedFile) (h : f.name ∉ st.processed_files) :
    (f.name ∈ (uploadHandler env cs ov st f).state.processed_files ↔
      (uploadHandler env cs ov st f).message =
        some (.success "✅ Document processed and stored in knowledge base!")) ∧
    ((uploadHandler env cs ov st f).message ≠
        some (.success "✅ Document processed and stored in knowledge base!") →
      (uploadHandler env cs ov st f).state.processed_files = st.processed_files ∧
        (uploadHandler env cs ov (uploadHandler env cs ov st f).state f).effects ≠ []) := by
  cases htw : env.tempWrite f.content with
  | error e =>
      rw [uploadHandler_tempWrite_error env cs ov st f e h htw]
      refine ⟨by simp [h], fun _ => ⟨rfl, ?_⟩⟩
      rw [show ((⟨st, [.tempWrite f.content],
          some (.error ("Error processing document: " ++ e))⟩ : UploadResult)).state = st from rfl,
        uploadHandler_tempWrite_error env cs ov st f e h htw]
      simp
  | ok p =>
      cases hkl : env.kbLoad ⟨p, cs, ov⟩ with
      | error e =>
          rw [uploadHandler_load_error env cs ov st f p e h htw hkl]
          refine ⟨by simp [h], fun _ => ⟨rfl, ?_⟩⟩
          rw [uploadHandler_load_error env cs ov
            { st with knowledge_base := some ⟨p, cs, ov⟩, vector_db := [] } f p e h htw hkl]
          simp
      | ok chunks =>
          rw [uploadHandler_load_ok env cs ov st f p chunks h htw hkl]
          exact ⟨by simp, fun hne => absurd rfl hne⟩

/-- Witness for C9: a fresh filename whose load raises is not recorded, and
re-uploading it attempts ingestion again. -/
theorem C9_processed_only_after_success_witness :
    ("fresh.pdf" : String) ∉ st_onekb.processed_files ∧
      ((("fresh.pdf" : String) ∈
          (uploadHandler env_load_fails 1000 200 st_onekb ⟨"fresh.pdf", "B"⟩).state.processed_files ↔
        (uploadHandler env_load_fails 1000 200 st_onekb ⟨"fresh.pdf", "B"⟩).message =
          some (.success "✅ Document processed and stored in knowledge base!")) ∧
      ((uploadHandler env_load_fails 1000 200 st_onekb ⟨"fresh.pdf", "B"⟩).message ≠
          some (.success "✅ Document processed and stored in knowledge base!") →
        (uploadHandler env_load_fails 1000 200 st_onekb ⟨"fresh.pdf", "B"⟩).state.processed_files =
            st_onekb.processed_files ∧
          (uploadHandler env_load_fails 1000 200
              (uploadHandler env_load_fails 1000 200 st_onekb ⟨"fresh.pdf", "B"⟩).state
              ⟨"fresh.pdf", "B"⟩).effects ≠ [])) :=
  ⟨by decide, C9_processed_only_after_success env_load_fails 1000 200 st_onekb
    ⟨"fresh.pdf", "B"⟩ (by decide)⟩

/-- C10: the empty-query guard tests only Python falsiness of the string, that
is emptiness; a custom query of a single space passes the guard and the full
six-call pipeline runs on it. -/
theorem C10_whitespace_query_not_blocked (m : Model) (kb : KBConfig) (q : String) :
    ((analyzeClick m kb q).warned = true ↔ q = "") ∧
      selectQuery AnalysisType.customQuery " " = " " ∧
      (analyzeClick m kb " ").warned = false ∧
      (analyzeClick m kb " ").calls.length = 6 := by
  refine ⟨?_, rfl, ?_, ?_⟩
  · by_cases hq : q = "" <;> simp [analyzeClick, hq]
  · simp [analyzeClick]
  · simp [analyzeClick, get_team_response]

/-- C3: on a non-empty query the Analyze handler issues exactly six model
calls, in this order: the three workers (legal researcher, contract analyst,
legal strategist), each on the query itself, then three team-lead calls; the
embedding is sequential by construction (each call's prompt is built from the
preceding calls' replies), and all three tabs render non-empty markdown. -/
theorem C3_analyze_pipeline (m : Model) (kb : KBConfig) (q : String) (h : q ≠ "") :
    (analyzeClick m kb q).warned = false ∧
      (analyzeClick m kb q).calls.length = 6 ∧
      (analyzeClick m kb q).calls.map (fun c => c.fst.name) =
        ["LegalAdvisor", "ContractAnalyst", "LegalStrategist",
          "teamlead", "teamlead", "teamlead"] ∧
      ((analyzeClick m kb q).calls.take 3).map Prod.snd = [q, q, q] ∧
      shownNonempty (analyzeClick m kb q).tab_analysis = true ∧
      shownNonempty (analyzeClick m kb q).tab_key_points = true ∧
      shownNonempty (analyzeClick m kb q).tab_recommendations = true := by
  rw [analyzeClick_of_ne_empty m kb q h]
  refine ⟨rfl, rfl, rfl, rfl, ?_, ?_, ?_⟩ <;>
    · simp only [shownNonempty, bne_iff_ne, ne_eq]
      exact displayOr_ne_empty _ _ (by decide)

/-- Witness for C3 at a concrete model oracle and query. -/
theorem C3_analyze_pipeline_witness :
    ("x" : String) ≠ "" ∧
      ((analyzeClick m0 kb0 "x").warned = false ∧
        (analyzeClick m0 kb0 "x").calls.length = 6 ∧
        (analyzeClick m0 kb0 "x").calls.map (fun c => c.fst.name) =
          ["LegalAdvisor", "ContractAnalyst", "LegalStrategist",
            "teamlead", "teamlead", "teamlead"] ∧
        ((analyzeClick m0 kb0 "x").calls.take 3).map Prod.snd = ["x", "x", "x"] ∧
        shownNonempty (analyzeClick m0 kb0 "x").tab_analysis = true ∧
        shownNonempty (analyzeClick m0 kb0 "x").tab_key_points = true ∧
        shownNonempty (analyzeClick m0 kb0 "x").tab_recommendations = true) :=
  ⟨by decide, C3_analyze_pipeline m0 kb0 "x" (by decide)⟩

/-- C4: after the first team-lead call produces the integrated report, the
team lead is invoked a second and a third time, and each of those two calls
receives a prompt built from the report's content (the key-points prompt and
the recommendations prompt, each a fixed header followed by the report). -/
theorem C4_aggregation_reuses_report (m : Model) (kb : KBConfig) (q : String) (h : q ≠ "") :
    (get_team_response m kb q).response =
        m team_lead (team_lead_prompt (m (legal_researcher kb) q)
          (m (contract_analyst kb) q) (m (legal_strategist kb) q)) ∧
      (analyzeClick m kb q).calls =
        (get_team_response m kb q).calls ++
          [(team_lead, key_points_prompt (get_team_response m kb q).response.content),
            (team_lead, recommendations_prompt (get_team_response m kb q).response.content)] ∧
      key_points_prompt (get_team_response m kb q).response.content =
        "Summarize the key legal points from this analysis:\n" ++
          (get_team_response m kb q).response.content ∧
      recommendations_prompt (get_team_response m kb q).response.content =
        "Provide legal recommendations based on this analysis:\n" ++
          (get_team_response m kb q).response.content := by
  rw [analyzeClick_of_ne_empty m kb q h]
  exact ⟨rfl, rfl, rfl, rfl⟩

/-- Witness for C4 at a concrete model oracle and query. -/
theorem C4_aggregation_reuses_report_witness :
    ("y" : String) ≠ "" ∧
      ((get_team_response m0 kb0 "y").response =
          m0 team_lead (team_lead_prompt (m0 (legal_researcher kb0) "y")
            (m0 (contract_analyst kb0) "y") (m0 (legal_strategist kb0) "y")) ∧
        (analyzeClick m0 kb0 "y").calls =
          (get_team_response m0 kb0 "y").calls ++
            [(team_lead, key_points_prompt (get_team_response m0 kb0 "y").response.content),
              (team_lead, recommendations_prompt (get_team_response m0 kb0 "y").response.content)] ∧
        key_points_prompt (get_team_response m0 kb0 "y").response.content =
          "Summarize the key legal points from this analysis:\n" ++
            (get_team_response m0 kb0 "y").response.content ∧
        recommendations_prompt (get_team_response m0 kb0 "y").response.content =
          "Provide legal recommendations based on this analysis:\n" ++
            (get_team_response m0 kb0 "y").response.content) :=
  ⟨by decide, C4_aggregation_reuses_report m0 kb0 "y" (by decide)⟩

/-- C1 is false as stated: when the knowledge-base load raises, the error is
caught and surfaced, but the prior session state is NOT left untouched —
line 69 reassigns `st.session_state.knowledge_base` to the new handle before
`load` runs, so after the failure the handle points at the new, never-loaded
knowledge base instead of the previous one; and because `recreate=True`
drops the collection before the chunks are read and inserted, the previous
vector-store contents are gone as well. -/
theorem C1_counterexample :
    (uploadHandler env_load_fails 1000 200 st_onekb ⟨"new.pdf", "BYTES"⟩).message =
        some (UiMsg.error "Error processing document: boom") ∧
      (uploadHandler env_load_fails 1000 200 st_onekb ⟨"new.pdf", "BYTES"⟩).state.knowledge_base =
        some ⟨"/tmp/BYTES", 1000, 200⟩ ∧
      st_onekb.knowledge_base = some kb0 ∧
      (some (⟨"/tmp/BYTES", 1000, 200⟩ : KBConfig) : Option KBConfig) ≠ some kb0 ∧
      st_onekb.vector_db = ["old chunk"] ∧
      (uploadHandler env_load_fails 1000 200 st_onekb ⟨"new.pdf", "BYTES"⟩).state.vector_db =
        [] := by
  exact ⟨by decide, by decide, rfl, by decide, rfl, by decide⟩

/-- C1 (amended): on a load failure the error is caught and surfaced as a
user-facing message and the processed-files set is left untouched; but the
rest of the prior state is not: the knowledge-base handle has already been
reassigned to the new (never-loaded) knowledge base, and `recreate=True`
has already dropped the collection, so the vector store is left empty — a
partial state. -/
theorem C1_upload_failure_state (env : IngestEnv) (cs ov : Nat)
    (st : SessionState) (f : UploadedFile) (p e : String)
    (h : f.name ∉ st.processed_files)
    (htw : env.tempWrite f.content = .ok p)
    (hkl : env.kbLoad ⟨p, cs, ov⟩ = .error e) :
    (uploadHandler env cs ov st f).message =
        some (.error ("Error processing document: " ++ e)) ∧
      (uploadHandler env cs ov st f).state.processed_files = st.processed_files ∧
      (uploadHandler env cs ov st f).state.knowledge_base = some ⟨p, cs, ov⟩ ∧
      (uploadHandler env cs ov st f).state.vector_db = [] := by
  rw [uploadHandler_load_error env cs ov st f p e h htw hkl]
  exact ⟨rfl, rfl, rfl, rfl⟩

/-- Witness for the amended C1 at a concrete failing environment. -/
theorem C1_upload_failure_state_witness :
    (("w1.pdf" : String) ∉ st_onekb.processed_files ∧
        env_load_fails.tempWrite "W" = .ok "/tmp/W" ∧
        env_load_fails.kbLoad ⟨"/tmp/W", 1000, 200⟩ = .error "boom") ∧
      ((uploadHandler env_load_fails 1000 200 st_onekb ⟨"w1.pdf", "W"⟩).message =
          some (.error ("Error processing document: " ++ "boom")) ∧
        (uploadHandler env_load_fails 1000 200 st_onekb ⟨"w1.pdf", "W"⟩).state.processed_files =
          st_onekb.processed_files ∧
        (uploadHandler env_load_fails 1000 200 st_onekb ⟨"w1.pdf", "W"⟩).state.knowledge_base =
          some ⟨"/tmp/W", 1000, 200⟩ ∧
        (uploadHandler env_load_fails 1000 200 st_onekb ⟨"w1.pdf", "W"⟩).state.vector_db = []) :=
  ⟨⟨by decide, rfl, rfl⟩,
    C1_upload_failure_state env_load_fails 1000 200 st_onekb ⟨"w1.pdf", "W"⟩
      "/tmp/W" "boom" (by decide) rfl rfl⟩

/-- C2 is false as stated: a missing API key is detected on the script run and
an error message is shown, but nothing blocks the rest of the page — with a
knowledge base loaded, a click of Analyze still attempts all six agent calls. -/
theorem C2_counterexample :
    inp_nokey.google_api_key = none ∧
      (scriptRun env_echo m0 st_onekb inp_nokey).2.api_key_msg =
        UiMsg.error "Missing Google API Key in Streamlit secrets!" ∧
      (agentCalls (scriptRun env_echo m0 st_onekb inp_nokey).2).length = 6 :=
  ⟨rfl, rfl, rfl⟩

/-- C2 (amended): a missing API key is detected on each script run and
surfaced as a sidebar error message, but it is not blocking: every other
observable of the run (resulting session state, ingestion effects and
message, and the Analyze outcome with its agent calls) is identical to the
same run with a key present. -/
theorem C2_missing_key_reported_not_blocking (env : IngestEnv) (m : Model)
    (st : SessionState) (inp : ScriptInputs) (k : String)
    (h : inp.google_api_key = none) :
    (scriptRun env m st inp).2.api_key_msg =
        UiMsg.error "Missing Google API Key in Streamlit secrets!" ∧
      (scriptRun env m st { inp with google_api_key := some k }).1 =
        (scriptRun env m st inp).1 ∧
      (scriptRun env m st { inp with google_api_key := some k }).2.upload_effects =
        (scriptRun env m st inp).2.upload_effects ∧
      (scriptRun env m st { inp with google_api_key := some k }).2.upload_msg =
        (scriptRun env m st inp).2.upload_msg ∧
      (scriptRun env m st { inp with google_api_key := some k }).2.analyze =
        (scriptRun env m st inp).2.analyze := by
  obtain ⟨key, up, cs, ov, ty, ct, ac⟩ := inp
  have hk : key = none := h
  subst hk
  exact ⟨rfl, rfl, rfl, rfl, rfl⟩

/-- Witness for the amended C2 at a concrete run without a key. -/
theorem C2_missing_key_reported_not_blocking_witness :
    inp_nokey.google_api_key = none ∧
      ((scriptRun env_echo m0 st_onekb inp_nokey).2.api_key_msg =
          UiMsg.error "Missing Google API Key in Streamlit secrets!" ∧
        (scriptRun env_echo m0 st_onekb { inp_nokey with google_api_key := some "KEY" }).1 =
          (scriptRun env_echo m0 st_onekb inp_nokey).1 ∧
        (scriptRun env_echo m0 st_onekb
            { inp_nokey with google_api_key := some "KEY" }).2.upload_effects =
          (scriptRun env_echo m0 st_onekb inp_nokey).2.upload_effects ∧
        (scriptRun env_echo m0 st_onekb
            { inp_nokey with google_api_key := some "KEY" }).2.upload_msg =
          (scriptRun env_echo m0 st_onekb inp_nokey).2.upload_msg ∧
        (scriptRun env_echo m0 st_onekb
            { inp_nokey with google_api_key := some "KEY" }).2.analyze =
          (scriptRun env_echo m0 st_onekb inp_nokey).2.analyze) :=
  ⟨rfl, C2_missing_key_reported_not_blocking env_echo m0 st_onekb inp_nokey "KEY" rfl⟩

/-- C5 is false as stated: the three worker agents do not differ only in
instructions and description — only the legal researcher is given the
DuckDuckGo web-search tool; the contract analyst and the legal strategist
have no tools, so they cannot issue an external web search. -/
theorem C5_counterexample :
    (legal_researcher kb0).tools = [ToolKind.duckduckgo] ∧
      (contract_analyst kb0).tools = [] ∧
      (legal_strategist kb0).tools = [] ∧
      (legal_researcher kb0).tools ≠ (contract_analyst kb0).tools :=
  ⟨rfl, rfl, rfl, by decide⟩

/-- C5 (amended): the three worker agents are configured identically except
for their name, description, instructions and tools; each of them may consult
the knowledge base (same handle, `search_knowledge` on), but only the legal
researcher carries the web-search tool. -/
theorem C5_worker_agent_configs (kb : KBConfig) :
    (legal_researcher kb).model_id = (contract_analyst kb).model_id ∧
      (contract_analyst kb).model_id = (legal_strategist kb).model_id ∧
      (legal_researcher kb).knowledge = some kb ∧
      (contract_analyst kb).knowledge = some kb ∧
      (legal_strategist kb).knowledge = some kb ∧
      (legal_researcher kb).search_knowledge = true ∧
      (contract_analyst kb).search_knowledge = true ∧
      (legal_strategist kb).search_knowledge = true ∧
      (legal_researcher kb).show_tool_calls = (contract_analyst kb).show_tool_calls ∧
      (contract_analyst kb).show_tool_calls = (legal_strategist kb).show_tool_calls ∧
      (legal_researcher kb).markdown = (contract_analyst kb).markdown ∧
      (contract_analyst kb).markdown = (legal_strategist kb).markdown ∧
      (legal_researcher kb).tools = [ToolKind.duckduckgo] ∧
      (contract_analyst kb).tools = [] ∧
      (legal_strategist kb).tools = [] :=
  ⟨rfl, rfl, rfl, rfl, rfl, rfl, rfl, rfl, rfl, rfl, rfl, rfl, rfl, rfl, rfl⟩

/-- C8 is false as stated: `load` is invoked with `recreate=True`, so
ingesting a second document under a new name recreates the collection and the
first document's chunks are gone. -/
theorem C8_counterexample :
    (uploadHandler env_echo 1000 200 st_empty ⟨"a.pdf", "A"⟩).state.vector_db =
        ["chunk of A"] ∧
      (uploadHandler env_echo 1000 200
          (uploadHandler env_echo 1000 200 st_empty ⟨"a.pdf", "A"⟩).state
          ⟨"b.pdf", "B"⟩).state.vector_db = ["chunk of B"] ∧
      ("chunk of A" : String) ∉
        (uploadHandler env_echo 1000 200
            (uploadHandler env_echo 1000 200 st_empty ⟨"a.pdf", "A"⟩).state
            ⟨"b.pdf", "B"⟩).state.vector_db :=
  ⟨rfl, rfl, by decide⟩

/-- C8 (amended): the vector index is a persistent collection under the fixed
collection identifier "law", but it is not append-only per document: every
successful ingestion calls `load(recreate=True, upsert=True)`, which recreates
the collection, so afterwards it holds exactly the chunks of the document just
loaded, whatever was stored before. -/
theorem C8_recreate_replaces_collection (env : IngestEnv) (cs ov : Nat)
    (st : SessionState) (f : UploadedFile) (p : String) (chunks : List String)
    (h : f.name ∉ st.processed_files)
    (htw : env.tempWrite f.content = .ok p)
    (hkl : env.kbLoad ⟨p, cs, ov⟩ = .ok chunks) :
    vector_db_config.collection = "law" ∧
      (uploadHandler env cs ov st f).state.vector_db = chunks ∧
      (uploadHandler env cs ov st f).message =
        some (.success "✅ Document processed and stored in knowledge base!") := by
  rw [uploadHandler_load_ok env cs ov st f p chunks h htw hkl]
  exact ⟨rfl, rfl, rfl⟩

/-- Witness for the amended C8: a successful ingestion into a session that
already holds another document's chunk leaves only the new chunks. -/
theorem C8_recreate_replaces_collection_witness :
    (("c.pdf" : String) ∉ st_onekb.processed_files ∧
        env_echo.tempWrite "C" = .ok "C" ∧
        env_echo.kbLoad ⟨"C", 1000, 200⟩ = .ok ["chunk of C"]) ∧
      (vector_db_config.collection = "law" ∧
        (uploadHandler env_echo 1000 200 st_onekb ⟨"c.pdf", "C"⟩).state.vector_db =
          ["chunk of C"] ∧
        (uploadHandler env_echo 1000 200 st_onekb ⟨"c.pdf", "C"⟩).message =
          some (.success "✅ Document processed and stored in knowledge base!")) :=
  ⟨⟨by decide, rfl, rfl⟩,
    C8_recreate_replaces_collection env_echo 1000 200 st_onekb ⟨"c.pdf", "C"⟩
      "C" ["chunk of C"] (by decide) rfl rfl⟩

end LegalTeam
